import Mathlib

/-!
Verification of the sentiment analytics & burnout-detection engine of
`employee-engagement-pulse`.

The engine lives in `src/lib/database.ts` (SQLite queries
`getDailyMoodTrends`, `getWeeklyMoodTrends`, `getChannelSummary`,
`detectBurnoutRisks`) and in the alert generator of
`src/app/api/alerts/route.ts`.  The emoji/reaction sentiment blending lives
in `src/app/api/slack/messages/route.ts`.

Modelling choices:
* `sentiment_score` and all derived means/percentages are rationals (`ℚ`);
  the source stores SQLite `REAL`s and JS numbers, and every claim is about
  exact rational values or explicit tolerances.
* A message's `DATE(timestamp)` is an integer day number (`ℤ`).  Day `0` is
  anchored to a Sunday (e.g. 1970-01-04), so day-of-week is `d % 7` with
  `0 = Sunday`, matching SQLite's weekday numbering.
* SQL `GROUP BY` over a flat table is modelled as `dedup` over the key
  column followed by filtering the rows of each key; `ORDER BY` is an
  insertion sort.  `ORDER BY` clauses that only affect the order of output
  rows that no claim reads in order (`ORDER BY avg_sentiment` of the
  user-risk query) are noted and dropped.
* SQLite evaluates the `WHERE` clause of a `SELECT` *before* its window
  functions (`ROW_NUMBER() OVER ...`); the embedding of
  `detectBurnoutRisks`' streak CTE reproduces this evaluation order
  faithfully.
* SQLite's `ROUND(x, 1)` rounds half away from zero; all rounded values in
  the engine are non-negative, so it is `⌊10·x + 1/2⌋ / 10`.
* SQL division of a `REAL` by zero yields `NULL`, and `NULL < -0.3` is not
  true, so a row with a zero regression denominator is dropped by the
  `WHERE` filter; the embedding's total division `x / 0 = 0` drops exactly
  the same rows (`0 < -0.3` is false).
-/

namespace Pulse

/-- A row of the `messages` table: the fields the analytics queries read
(`channel_id`, `user_id`, `DATE(timestamp)` as a day number, and
`sentiment_score`). -/
structure Msg where
  channel_id : String
  user_id : String
  date : ℤ
  score : ℚ
deriving DecidableEq, Repr

/-- SQLite `ROUND(x, 1)` for the non-negative values the engine rounds:
round half away from zero to one decimal place. -/
def round1 (q : ℚ) : ℚ := (⌊q * 10 + 1/2⌋ : ℚ) / 10

/-- `timestamp >= datetime('now', '-days days')` at day granularity. -/
def inWindow (now days : ℤ) (m : Msg) : Bool := decide (now - days ≤ m.date)

/-- The in-window rows of the `messages` table. -/
def windowed (msgs : List Msg) (now days : ℤ) : List Msg :=
  msgs.filter (inWindow now days)

/-- The distinct `DATE(timestamp)` values of a row set (`GROUP BY DATE`).
`dedup` keeps the first occurrence of each key. -/
def datesOf (msgs : List Msg) : List ℤ := (msgs.map (·.date)).dedup

/-- Scores of the messages of one calendar day (one `GROUP BY` group). -/
def scoresOn (msgs : List Msg) (d : ℤ) : List ℚ :=
  (msgs.filter (fun m => m.date == d)).map (·.score)

/-- Insert into a sorted list (embedding of SQL `ORDER BY`). -/
def insertSorted (x : ℤ) : List ℤ → List ℤ
  | [] => [x]
  | y :: ys => if x ≤ y then x :: y :: ys else y :: insertSorted x ys

/-- Sort day numbers ascending (`ORDER BY date`). -/
def sortDates (l : List ℤ) : List ℤ := l.foldr insertSorted []

/-- SQL `AVG` of a list of values (`AVG` of an empty group never occurs:
`GROUP BY` only forms non-empty groups). -/
def mean (l : List ℚ) : ℚ := l.sum / l.length

/-- One output row of `getDailyMoodTrends`.  (The `active_channels` and
`active_users` columns are read by no claim and are omitted.) -/
structure DailyBucket where
  date : ℤ
  overall_mood : ℚ
  total_messages : ℕ
  positive_percentage : ℚ
  negative_percentage : ℚ
  neutral_percentage : ℚ
deriving DecidableEq, Repr

/-- The aggregate of one `GROUP BY DATE(timestamp)` group of
`getDailyMoodTrends`: `AVG(sentiment_score)`, `COUNT(*)`, and the three
`ROUND(100·count/total, 1)` percentage columns with the source's
classification (`positive`: score ≥ 7, `negative`: score < 4, `neutral`:
`score >= 4 AND score < 7`). -/
def mkDailyBucket (d : ℤ) (scores : List ℚ) : DailyBucket :=
  let n : ℚ := scores.length
  { date := d
    overall_mood := scores.sum / n
    total_messages := scores.length
    positive_percentage :=
      round1 ((scores.countP (fun s => decide (7 ≤ s))) * 100 / n)
    negative_percentage :=
      round1 ((scores.countP (fun s => decide (s < 4))) * 100 / n)
    neutral_percentage :=
      round1 ((scores.countP (fun s => decide (4 ≤ s) && decide (s < 7))) * 100 / n) }

/-- `getDailyMoodTrends(days)` of `src/lib/database.ts`: filter to the
window, group by calendar date, aggregate each group, order by date. -/
def getDailyMoodTrends (msgs : List Msg) (now days : ℤ) : List DailyBucket :=
  let w := windowed msgs now days
  (sortDates (datesOf w)).map (fun d => mkDailyBucket d (scoresOn w d))

/-- The distinct `channel_id` values of a row set. -/
def channelsOf (msgs : List Msg) : List String := (msgs.map (·.channel_id)).dedup

/-- The rows of one channel. -/
def chanMsgs (msgs : List Msg) (c : String) : List Msg :=
  msgs.filter (fun m => m.channel_id == c)

/-- The `daily_sentiment` CTE of `detectBurnoutRisks`, restricted to one
channel: `(date, AVG(sentiment_score))` pairs in date order. -/
def dailySentimentRows (msgs : List Msg) (c : String) : List (ℤ × ℚ) :=
  (sortDates (datesOf (chanMsgs msgs c))).map
    (fun d => (d, mean (scoresOn (chanMsgs msgs c) d)))

/-- `CASE WHEN daily_sentiment < 4.0 THEN 1 ELSE 0 END`. -/
def lowCase (r : ℤ × ℚ) : ℕ := if r.2 < 4 then 1 else 0

/-- Annotate each row of the `low_sentiment_days` CTE with its
`grp = ROW_NUMBER() OVER (PARTITION BY channel_id ORDER BY date)
     - ROW_NUMBER() OVER (PARTITION BY channel_id, CASE ... ORDER BY date)`.
SQLite applies the CTE's `WHERE daily_sentiment < 4.0` *before* computing
the window functions, so `rows` here is the already-filtered list; for the
row at 0-based position `i`, the first `ROW_NUMBER` is `i + 1` and the
second is the number of rows at positions `≤ i` whose `CASE` class equals
this row's class (the partition is ordered by the same date order). -/
def withGrpAux (prev : List (ℤ × ℚ)) : List (ℤ × ℚ) → List (ℤ × ℚ × ℤ)
  | [] => []
  | r :: rest =>
      let sofar := prev ++ [r]
      let rn1 : ℤ := sofar.length
      let rn2 : ℤ := sofar.countP (fun r2 => lowCase r2 == lowCase r)
      (r.1, r.2, rn1 - rn2) :: withGrpAux sofar rest

/-- The `grp`-annotated rows of `low_sentiment_days` (one channel). -/
def withGrp (rows : List (ℤ × ℚ)) : List (ℤ × ℚ × ℤ) := withGrpAux [] rows

/-- The distinct `grp` keys, in first-occurrence order (`GROUP BY grp`). -/
def grpKeys (rows : List (ℤ × ℚ × ℤ)) : List ℤ := (rows.map (fun r => r.2.2)).dedup

/-- SQL `MIN` over a non-empty group (`0` on the empty list, unreachable). -/
def listMin : List ℤ → ℤ
  | [] => 0
  | x :: xs => xs.foldl min x

/-- SQL `MAX` over a non-empty group (`0` on the empty list, unreachable). -/
def listMax : List ℤ → ℤ
  | [] => 0
  | x :: xs => xs.foldl max x

/-- One row of `detectBurnoutRisks().consecutive_low_channels`. -/
structure StreakRow where
  channel_id : String
  streak_start : ℤ
  streak_end : ℤ
  consecutive_days : ℕ
  avg_sentiment_in_streak : ℚ
deriving DecidableEq, Repr

/-- The streak rows of one channel: filter the channel's daily means to the
low (`< 4.0`) days, annotate with `grp`, group by `grp`, aggregate
`MIN(date), MAX(date), COUNT(*), AVG(daily_sentiment)`, and keep groups
with `HAVING COUNT(*) >= 3`. -/
def streaksOfChannel (msgs : List Msg) (c : String) : List StreakRow :=
  let lows := (dailySentimentRows msgs c).filter (fun r => decide (r.2 < 4))
  let tagged := withGrp lows
  (grpKeys tagged).filterMap (fun g =>
    let grp := tagged.filter (fun r => r.2.2 == g)
    if 3 ≤ grp.length then
      some { channel_id := c
             streak_start := listMin (grp.map (·.1))
             streak_end := listMax (grp.map (·.1))
             consecutive_days := grp.length
             avg_sentiment_in_streak := mean (grp.map (fun r => r.2.1)) }
    else none)

/-- The `consecutive_low_channels` query of `detectBurnoutRisks`: messages
of the last 7 days, per channel. -/
def detectStreaks (msgs : List Msg) (now : ℤ) : List StreakRow :=
  let w := windowed msgs now 7
  (channelsOf w).flatMap (fun c => streaksOfChannel w c)

/-- The ordinary-least-squares slope of the `trend_analysis` CTE:
`(n·Σ(xy) − Σx·Σy) / (n·Σ(x²) − (Σx)²)` with `x = day_num = 1..n` in date
order and `y` the daily mean.  A zero denominator (fewer than two points)
yields `0` in ℚ, and the corresponding SQL `NULL` row is likewise dropped
by the `trend_slope < -0.3` filter. -/
def olsSlope (ys : List ℚ) : ℚ :=
  let n : ℚ := ys.length
  let xs : List ℚ := (List.range ys.length).map (fun i => ((i + 1 : ℕ) : ℚ))
  let sx := xs.sum
  let sy := ys.sum
  let sxy := ((xs.zip ys).map (fun p => p.1 * p.2)).sum
  let sxx := (xs.map (fun x => x * x)).sum
  (n * sxy - sx * sy) / (n * sxx - sx * sx)

/-- One row of `detectBurnoutRisks().declining_trend_channels`.  (The
`min_sentiment` / `max_sentiment` columns are read by no claim and are
omitted.) -/
structure TrendRow where
  channel_id : String
  days_count : ℕ
  trend_slope : ℚ
  avg_sentiment : ℚ
deriving DecidableEq, Repr

/-- The days of one channel that survive the `daily_sentiment` CTE of the
declining-trend query: its `HAVING COUNT(*) >= 3` keeps only the days with
at least 3 messages. -/
def qualifyingDays (msgs : List Msg) (c : String) : List ℤ :=
  (sortDates (datesOf (chanMsgs msgs c))).filter
    (fun d => 3 ≤ (scoresOn (chanMsgs msgs c) d).length)

/-- The `trend_analysis` row of one channel, kept only if
`days_count >= 3 AND trend_slope < -0.3 AND avg_sentiment < 6.0`. -/
def channelTrend (msgs : List Msg) (c : String) : Option TrendRow :=
  let ds := qualifyingDays msgs c
  let ys := ds.map (fun d => mean (scoresOn (chanMsgs msgs c) d))
  let slope := olsSlope ys
  let avg := mean ys
  if 3 ≤ ds.length ∧ slope < -(3/10) ∧ avg < 6 then
    some { channel_id := c, days_count := ds.length, trend_slope := slope,
           avg_sentiment := avg }
  else none

/-- The `declining_trend_channels` query of `detectBurnoutRisks`: messages
of the last 5 days, per channel. -/
def decliningTrends (msgs : List Msg) (now : ℤ) : List TrendRow :=
  let w := windowed msgs now 5
  (channelsOf w).filterMap (fun c => channelTrend w c)

/-- Modelled from the claim's words (C4), for comparison with the source's
`decliningTrends`: a decline exists for channel `c` when at least 3 daily
points (days with ≥ 1 message) remain in the 5-day window, the OLS slope of
their daily means is `< -0.3`, and the mean of the daily means is `< 6`. -/
def specTrendDecline (msgs : List Msg) (now : ℤ) (c : String) : Prop :=
  let w := windowed msgs now 5
  let ds := sortDates (datesOf (chanMsgs w c))
  let ys := ds.map (fun d => mean (scoresOn (chanMsgs w c) d))
  3 ≤ ds.length ∧ olsSlope ys < -(3/10) ∧ mean ys < 6

/-- One row of `detectBurnoutRisks().at_risk_users`.  (`lowest_sentiment`
and `last_activity` are read by no claim and are omitted.) -/
structure UserRiskRow where
  user_id : String
  channels_active : ℕ
  total_messages : ℕ
  avg_sentiment : ℚ
  negative_message_percentage : ℚ
deriving DecidableEq, Repr

/-- The distinct `user_id` values of a row set. -/
def usersOf (msgs : List Msg) : List String := (msgs.map (·.user_id)).dedup

/-- The rows of one user. -/
def userMsgs (msgs : List Msg) (u : String) : List Msg :=
  msgs.filter (fun m => m.user_id == u)

/-- The aggregate of one `GROUP BY user_id` group of the user-risk query. -/
def mkUserRow (msgs : List Msg) (u : String) : UserRiskRow :=
  let l := userMsgs msgs u
  let scores := l.map (·.score)
  let n : ℚ := scores.length
  { user_id := u
    channels_active := (l.map (·.channel_id)).dedup.length
    total_messages := scores.length
    avg_sentiment := scores.sum / n
    negative_message_percentage :=
      round1 ((scores.countP (fun s => decide (s < 4))) * 100 / n) }

/-- The `at_risk_users` query of `detectBurnoutRisks`: messages of the last
7 days grouped by user, kept by
`HAVING avg_sentiment < 4.5 AND negative_message_percentage > 30`.
(The query's `ORDER BY avg_sentiment ASC` only orders output rows, which no
claim reads in order, and is dropped.) -/
def atRiskUsers (msgs : List Msg) (now : ℤ) : List UserRiskRow :=
  let w := windowed msgs now 7
  ((usersOf w).map (mkUserRow w)).filter
    (fun r => decide (r.avg_sentiment < 4.5) &&
      decide (30 < r.negative_message_percentage))

/-- Modelled from the claim's words (C7), for comparison with the source's
`atRiskUsers`: a user is flagged when their in-window mean sentiment is
`< 4.5` and their exact (unrounded) share of messages scored `< 4` exceeds
30%. -/
def specUserFlag (msgs : List Msg) (now : ℤ) (u : String) : Prop :=
  let scores := (userMsgs (windowed msgs now 7) u).map (·.score)
  scores ≠ [] ∧ mean scores < 4.5 ∧
    30 < ((scores.countP (fun s => decide (s < 4))) : ℚ) * 100 / scores.length

/-- SQLite weekday number of a day (day 0 is anchored to a Sunday):
`0 = Sunday .. 6 = Saturday`. -/
def dow (d : ℤ) : ℤ := d % 7

/-- SQLite's `'weekday 0'` modifier: advance to the next Sunday, staying
put if the day already is a Sunday. -/
def nextSunday (d : ℤ) : ℤ := d + (0 - dow d) % 7

/-- `DATE(timestamp, 'weekday 0', '-6 days')` of `getWeeklyMoodTrends`:
the `week_start` column assigned to a message. -/
def weekStartCode (d : ℤ) : ℤ := nextSunday d - 6

/-- Modelled from the claim's words (C8), for comparison with the source's
`weekStartCode`: the most recent Sunday `≤ d`. -/
def sundaySpec (d : ℤ) : ℤ := d - dow d

/-- The most recent Monday `≤ d` (the corrected description of
`weekStartCode`). -/
def mondayStart (d : ℤ) : ℤ := d - (d - 1) % 7

/-- One output row of `getWeeklyMoodTrends`.  (Columns other than
`week_start`, `weekly_mood` and `total_messages` are read by no claim and
are omitted.) -/
structure WeeklyBucket where
  week_start : ℤ
  weekly_mood : ℚ
  total_messages : ℕ
deriving DecidableEq, Repr

/-- `getWeeklyMoodTrends(weeks)` of `src/lib/database.ts`: filter to the
`weeks*7`-day window and group by calendar week.  The query's grouping key
`strftime('%Y-%W', timestamp)` is the Monday-based week-of-year, which away
from year boundaries groups two days together exactly when their
`weekStartCode` agrees, so the embedding groups by `weekStartCode`
directly; each group's `week_start` column is its common `weekStartCode`
value. -/
def getWeeklyMoodTrends (msgs : List Msg) (now weeks : ℤ) : List WeeklyBucket :=
  let w := windowed msgs now (weeks * 7)
  (sortDates ((w.map (fun m => weekStartCode m.date)).dedup)).map (fun ws =>
    let scores := (w.filter (fun m => weekStartCode m.date == ws)).map (·.score)
    { week_start := ws, weekly_mood := mean scores,
      total_messages := scores.length })

/-- One channel-scoped alert pushed by `POST /api/alerts`. -/
structure Alert where
  channel_id : String
  alert_type : String
  severity : String
deriving DecidableEq, Repr

/-- Per-channel summary row consumed by the alert generator (`id`,
`avg_sentiment` are the fields its conditions read). -/
structure SummaryRow where
  id : String
  avg_sentiment : ℚ
deriving DecidableEq, Repr

/-- The body of the `for (const channel of channels)` loop of
`POST /api/alerts`: push a `high` alert when `avgSentiment < 4.0` and no
alert for the channel exists yet, else a `medium` alert when
`avgSentiment < 5.5` and no alert for the channel exists yet. -/
def thresholdStep (acc : List Alert) (ch : SummaryRow) : List Alert :=
  if ch.avg_sentiment < 4 ∧ ¬ (acc.any (fun a => a.channel_id == ch.id)) then
    acc ++ [{ channel_id := ch.id, alert_type := "low_sentiment",
              severity := "high" }]
  else if ch.avg_sentiment < 5.5 ∧ ¬ (acc.any (fun a => a.channel_id == ch.id)) then
    acc ++ [{ channel_id := ch.id, alert_type := "moderate_concern",
              severity := "medium" }]
  else acc

/-- The channel-scoped alerts produced by one run of `POST /api/alerts`:
first one `critical` alert per `consecutive_low_channels` row, then one
`warning` alert per `declining_trend_channels` row (the source pushes these
without checking for an existing alert of the channel), then the
threshold loop over the channel summaries. -/
def generateChannelAlerts (streaks : List StreakRow) (trends : List TrendRow)
    (channels : List SummaryRow) : List Alert :=
  let a1 := streaks.map (fun s =>
    { channel_id := s.channel_id, alert_type := "burnout_critical",
      severity := "critical" : Alert })
  let a2 := trends.map (fun t =>
    { channel_id := t.channel_id, alert_type := "declining_trend",
      severity := "warning" : Alert })
  channels.foldl thresholdStep (a1 ++ a2)

/-- Number of alerts of a run scoped to channel `c`. -/
def countFor (c : String) (l : List Alert) : ℕ :=
  l.countP (fun a => a.channel_id == c)

/-- A `high`- or `medium`-severity (threshold-derived) alert for channel
`c` is present. -/
def hmFor (c : String) (l : List Alert) : Prop :=
  ∃ a ∈ l, a.channel_id = c ∧ (a.severity = "high" ∨ a.severity = "medium")

/-- The emoji → sentiment table of `getEmojiSentiment` in
`src/app/api/slack/messages/route.ts`, transcribed entry for entry. -/
def emojiMap : List (String × ℚ) :=
  [("joy", 10), ("grinning", 9), ("heart_eyes", 10), ("heart", 9),
   ("tada", 10), ("fire", 9), ("rocket", 9), ("star", 9), ("sparkles", 9),
   ("clap", 9), ("raised_hands", 9), ("muscle", 9), ("trophy", 10),
   ("crown", 9),
   ("smile", 8), ("thumbsup", 8), ("+1", 8), ("ok_hand", 7), ("wave", 7),
   ("wink", 7), ("relaxed", 7), ("blush", 7), ("sunglasses", 8), ("cool", 8),
   ("laughing", 8), ("smiley", 8), ("grin", 8),
   ("beaming_face_with_smiling_eyes", 8),
   ("slightly_smiling_face", 6), ("upside_down_face", 6), ("innocent", 6),
   ("thinking_face", 5), ("neutral_face", 5), ("expressionless", 5),
   ("shrug", 5), ("face_with_raised_eyebrow", 5), ("eyes", 5),
   ("zipper_mouth_face", 5),
   ("confused", 4), ("unamused", 4), ("rolling_eyes", 4), ("grimacing", 4),
   ("hushed", 4), ("flushed", 4),
   ("disappointed", 3), ("worried", 3), ("frowning", 3), ("pensive", 3),
   ("tired_face", 3), ("weary", 2), ("persevere", 3), ("confounded", 2),
   ("thumbsdown", 2), ("-1", 2), ("no_good", 2), ("x", 2),
   ("cry", 2), ("sob", 1), ("angry", 1), ("rage", 1),
   ("face_with_symbols_on_mouth", 1), ("triumph", 2),
   ("disappointed_relieved", 2), ("fearful", 1), ("cold_sweat", 2),
   ("coffee", 6), ("computer", 6), ("memo", 6), ("calendar", 5),
   ("clock", 5), ("hourglass_flowing_sand", 4), ("alarm_clock", 4),
   ("sos", 2), ("warning", 3),
   ("handshake", 8), ("raised_hand", 7), ("point_up", 6),
   ("heavy_check_mark", 8), ("white_check_mark", 8),
   ("ballot_box_with_check", 7), ("question", 5), ("exclamation", 4),
   ("double_exclamation_mark", 3)]

/-- `getEmojiSentiment(emoji)`: table lookup with neutral default `5`
(`emojiMap[emoji] || 5`; no table value is `0`, so `||` only handles the
missing-key case). -/
def getEmojiSentiment (e : String) : ℚ :=
  ((emojiMap.find? (fun p => p.1 == e)).map (fun p => p.2)).getD 5

/-- `const count = reaction.count || 1`. -/
def effCount (c : ℕ) : ℕ := if c = 0 then 1 else c

/-- `reactionSentimentSum` accumulated over a message's reactions, each a
`(name, count)` pair, weighted by reaction count. -/
def reactionSum (rs : List (String × ℕ)) : ℚ :=
  (rs.map (fun r => getEmojiSentiment r.1 * (effCount r.2 : ℚ))).sum

/-- `reactionCount` accumulated over a message's reactions. -/
def reactionCount (rs : List (String × ℕ)) : ℕ :=
  (rs.map (fun r => effCount r.2)).sum

/-- The sentiment score stored for a message after reaction blending: if
any reactions exist, `combined = 0.7 * text_score + 0.3 * avgReaction`,
otherwise the text score is kept. -/
def processedScore (t : ℚ) (rs : List (String × ℕ)) : ℚ :=
  if reactionCount rs = 0 then t
  else t * (7/10) + (reactionSum rs / (reactionCount rs : ℚ)) * (3/10)

/-! ### Concrete inputs used by the claims -/

/-- C1's input: one channel, 8 consecutive present days with daily means
`[3,3,3,5,2,2,2,2]` (one message per day). -/
def msgsC1 : List Msg :=
  [⟨"eng", "u", 1, 3⟩, ⟨"eng", "u", 2, 3⟩, ⟨"eng", "u", 3, 3⟩,
   ⟨"eng", "u", 4, 5⟩, ⟨"eng", "u", 5, 2⟩, ⟨"eng", "u", 6, 2⟩,
   ⟨"eng", "u", 7, 2⟩, ⟨"eng", "u", 8, 2⟩]

/-- C3's input: two 2-day low spans (days 1–2 and 4–5) separated by the
messageless day 3. -/
def msgsC3 : List Msg :=
  [⟨"eng", "u", 1, 2⟩, ⟨"eng", "u", 2, 2⟩,
   ⟨"eng", "u", 4, 2⟩, ⟨"eng", "u", 5, 2⟩]

/-- C4's counterexample input: three daily points (one message each) with
means `[6,4,2]` — a steep decline, but every day has fewer than 3
messages. -/
def msgsC4 : List Msg :=
  [⟨"c", "u", 1, 6⟩, ⟨"c", "u", 2, 4⟩, ⟨"c", "u", 3, 2⟩]

/-- C4's witness input: three daily points with *three* messages each and
daily means `[6,4,2]`, so every day survives the per-day
`HAVING COUNT(*) >= 3` and the decline is reported. -/
def msgsC4w : List Msg :=
  [⟨"c", "u", 1, 6⟩, ⟨"c", "u", 1, 6⟩, ⟨"c", "u", 1, 6⟩,
   ⟨"c", "u", 2, 4⟩, ⟨"c", "u", 2, 4⟩, ⟨"c", "u", 2, 4⟩,
   ⟨"c", "u", 3, 2⟩, ⟨"c", "u", 3, 2⟩, ⟨"c", "u", 3, 2⟩]

/-- C7's counterexample input: one user with 203 in-window messages, 61 of
them scored 1 (negative) and 142 scored 5; the exact negative share is
6100/203 ≈ 30.049% > 30, but it rounds to 30.0. -/
def msgsC7 : List Msg :=
  List.replicate 61 ⟨"c", "u", 1, 1⟩ ++ List.replicate 142 ⟨"c", "u", 1, 5⟩

/-- C7's witness input (the spec's own example): 10 messages, 4 scored 1
(negative) and 6 scored 19/3, so the mean is 4.2 and the negative share is
40%. -/
def msgsC7w : List Msg :=
  [⟨"c", "u", 1, 1⟩, ⟨"c", "u", 1, 1⟩, ⟨"c", "u", 1, 1⟩, ⟨"c", "u", 1, 1⟩,
   ⟨"c", "u", 1, 19/3⟩, ⟨"c", "u", 1, 19/3⟩, ⟨"c", "u", 1, 19/3⟩,
   ⟨"c", "u", 1, 19/3⟩, ⟨"c", "u", 1, 19/3⟩, ⟨"c", "u", 1, 19/3⟩]

/-- C9's counterexample input: a message with sentiment score 100 (outside
`[1,10]`) next to an ordinary one on the same day. -/
def msgsC9 : List Msg := [⟨"c", "u", 0, 100⟩, ⟨"c", "u", 0, 5⟩]

/-- C2's counterexample input: one streak row for channel `eng`. -/
def cexStreaks : List StreakRow :=
  [{ channel_id := "eng", streak_start := 1, streak_end := 3,
     consecutive_days := 3, avg_sentiment_in_streak := 3 }]

/-- C2's counterexample input: one declining-trend row for the same
channel `eng`. -/
def cexTrends : List TrendRow :=
  [{ channel_id := "eng", days_count := 3, trend_slope := -1,
     avg_sentiment := 3 }]

/-! ## Theorems -/

/-! ### Plumbing lemmas -/

theorem mem_insertSorted {a x : ℤ} {l : List ℤ} :
    a ∈ insertSorted x l ↔ a = x ∨ a ∈ l := by
  induction l with
  | nil => simp [insertSorted]
  | cons y ys ih =>
      by_cases h : x ≤ y
      · simp [insertSorted, h]
      · simp only [insertSorted, if_neg h, List.mem_cons, ih]
        tauto

theorem mem_sortDates {a : ℤ} {l : List ℤ} : a ∈ sortDates l ↔ a ∈ l := by
  induction l with
  | nil => simp [sortDates]
  | cons y ys ih =>
      simp only [sortDates, List.foldr_cons, mem_insertSorted, List.mem_cons]
      rw [show ys.foldr insertSorted [] = sortDates ys from rfl]
      rw [ih]

theorem scoresOn_ne_nil {msgs : List Msg} {d : ℤ} (h : d ∈ datesOf msgs) :
    scoresOn msgs d ≠ [] := by
  simp only [datesOf, List.mem_dedup, List.mem_map] at h
  obtain ⟨m, hm, hd⟩ := h
  simp only [scoresOn, ne_eq, List.map_eq_nil_iff, List.filter_eq_nil_iff]
  push_neg
  exact ⟨m, hm, by simp [hd]⟩

/-! ### C5: the percentage triple of a non-empty daily bucket sums to
100 within 0.1 -/

/-- Every score falls in exactly one of the three classes, so the three
counts partition the list. -/
theorem count_partition (scores : List ℚ) :
    scores.countP (fun s => decide (7 ≤ s)) +
      scores.countP (fun s => decide (s < 4)) +
      scores.countP (fun s => decide (4 ≤ s) && decide (s < 7)) =
        scores.length := by
  induction scores with
  | nil => simp
  | cons s t ih =>
      simp only [List.countP_cons, List.length_cons]
      rcases le_or_lt 7 s with h7 | h7
      · have h4 : ¬ s < 4 := by linarith
        have h7l : ¬ s < 7 := by linarith
        simp [h7, h4, h7l]
        omega
      · rcases lt_or_le s 4 with h4 | h4
        · have h7' : ¬ 7 ≤ s := by linarith
          have h4l : ¬ 4 ≤ s := by linarith
          simp [h7', h4, h4l]
          omega
        · have h7' : ¬ 7 ≤ s := not_le.mpr h7
          have h4' : ¬ s < 4 := not_lt.mpr h4
          simp [h7', h4', h4, h7]
          omega

/-- Floor bounds for three summands adding to 1001.5. -/
theorem floor3_bounds (t1 t2 t3 : ℚ) (h : t1 + t2 + t3 = 1000 + 3/2) :
    999 ≤ ⌊t1⌋ + ⌊t2⌋ + ⌊t3⌋ ∧ ⌊t1⌋ + ⌊t2⌋ + ⌊t3⌋ ≤ 1001 := by
  have u1 := Int.floor_le t1
  have u2 := Int.floor_le t2
  have u3 := Int.floor_le t3
  have l1 := Int.lt_floor_add_one t1
  have l2 := Int.lt_floor_add_one t2
  have l3 := Int.lt_floor_add_one t3
  constructor
  · have hq : (998 : ℚ) < ((⌊t1⌋ + ⌊t2⌋ + ⌊t3⌋ : ℤ) : ℚ) := by
      push_cast
      linarith
    have : (998 : ℤ) < ⌊t1⌋ + ⌊t2⌋ + ⌊t3⌋ := by exact_mod_cast hq
    omega
  · have hq : ((⌊t1⌋ + ⌊t2⌋ + ⌊t3⌋ : ℤ) : ℚ) < 1002 := by
      push_cast
      linarith
    have : ⌊t1⌋ + ⌊t2⌋ + ⌊t3⌋ < (1002 : ℤ) := by exact_mod_cast hq
    omega

/-- Numeric core: three floor-rounded shares of a partition of `n` sum to
100 within one tenth. -/
theorem round1_shares_sum {a b c n : ℕ} (hn : 0 < n) (habc : a + b + c = n) :
    |round1 ((a : ℚ) * 100 / n) + round1 ((b : ℚ) * 100 / n) +
      round1 ((c : ℚ) * 100 / n) - 100| ≤ 1/10 := by
  have hn' : (n : ℚ) ≠ 0 := Nat.cast_ne_zero.mpr hn.ne'
  have hcast : (a : ℚ) + b + c = n := by exact_mod_cast habc
  have hsum : ((a : ℚ) * 100 / n * 10 + 1/2) + ((b : ℚ) * 100 / n * 10 + 1/2)
      + ((c : ℚ) * 100 / n * 10 + 1/2) = 1000 + 3/2 := by
    have step : ((a : ℚ) * 100 / n * 10 + 1/2) + ((b : ℚ) * 100 / n * 10 + 1/2)
        + ((c : ℚ) * 100 / n * 10 + 1/2)
        = ((a : ℚ) + b + c) * 1000 / n + 3/2 := by ring
    rw [step, hcast]
    field_simp
  obtain ⟨hlo, hhi⟩ := floor3_bounds _ _ _ hsum
  have hform : round1 ((a : ℚ) * 100 / n) + round1 ((b : ℚ) * 100 / n) +
      round1 ((c : ℚ) * 100 / n) =
      ((⌊(a : ℚ) * 100 / n * 10 + 1/2⌋ + ⌊(b : ℚ) * 100 / n * 10 + 1/2⌋ +
        ⌊(c : ℚ) * 100 / n * 10 + 1/2⌋ : ℤ) : ℚ) / 10 := by
    simp only [round1]
    push_cast
    ring
  rw [hform, abs_le]
  have hloq : (999 : ℚ) ≤ ((⌊(a : ℚ) * 100 / n * 10 + 1/2⌋ +
      ⌊(b : ℚ) * 100 / n * 10 + 1/2⌋ +
      ⌊(c : ℚ) * 100 / n * 10 + 1/2⌋ : ℤ) : ℚ) := by exact_mod_cast hlo
  have hhiq : ((⌊(a : ℚ) * 100 / n * 10 + 1/2⌋ +
      ⌊(b : ℚ) * 100 / n * 10 + 1/2⌋ +
      ⌊(c : ℚ) * 100 / n * 10 + 1/2⌋ : ℤ) : ℚ) ≤ 1001 := by exact_mod_cast hhi
  constructor
  · linarith
  · linarith

/-- C5: For every non-empty daily bucket produced by `getDailyMoodTrends`,
`positive_percentage + neutral_percentage + negative_percentage = 100`
within a tolerance of `0.1`, with `positive`: score ≥ 7, `neutral`:
4 ≤ score < 7, `negative`: score < 4. -/
theorem daily_bucket_pct_sum (msgs : List Msg) (now days : ℤ)
    (b : DailyBucket) (hb : b ∈ getDailyMoodTrends msgs now days) :
    |b.positive_percentage + b.neutral_percentage + b.negative_percentage
      - 100| ≤ 1/10 := by
  simp only [getDailyMoodTrends, List.mem_map] at hb
  obtain ⟨d, hd, rfl⟩ := hb
  rw [mem_sortDates] at hd
  have hne : scoresOn (windowed msgs now days) d ≠ [] := scoresOn_ne_nil hd
  set scores := scoresOn (windowed msgs now days) d with hsc
  have hn : 0 < scores.length := List.length_pos.mpr hne
  have hpart := count_partition scores
  have hpart' : scores.countP (fun s => decide (7 ≤ s)) +
      scores.countP (fun s => decide (4 ≤ s) && decide (s < 7)) +
      scores.countP (fun s => decide (s < 4)) = scores.length := by omega
  have := round1_shares_sum (a := scores.countP (fun s => decide (7 ≤ s)))
    (b := scores.countP (fun s => decide (4 ≤ s) && decide (s < 7)))
    (c := scores.countP (fun s => decide (s < 4))) (n := scores.length) hn
    hpart'
  simpa [mkDailyBucket] using this

/-- Witness for C5 at a concrete input: two messages on one day, scores 8
and 3. -/
theorem daily_bucket_pct_sum_witness :
    |(mkDailyBucket 0 [8, 3]).positive_percentage +
      (mkDailyBucket 0 [8, 3]).neutral_percentage +
      (mkDailyBucket 0 [8, 3]).negative_percentage - 100| ≤ 1/10 :=
  daily_bucket_pct_sum
    [⟨"c", "u", 0, 8⟩, ⟨"c", "u", 0, 3⟩] 0 7 (mkDailyBucket 0 [8, 3])
    (by norm_num [getDailyMoodTrends, windowed, datesOf, scoresOn, sortDates,
      insertSorted, inWindow])

/-! ### C1 / C3: streak detection

In the `low_sentiment_days` CTE the `WHERE daily_sentiment < 4.0` filter is
applied before the two `ROW_NUMBER()` window functions, so the
`CASE WHEN daily_sentiment < 4.0 THEN 1 ELSE 0 END` partition key is `1` on
every remaining row: both row numbers coincide and `grp = 0` on every row.
All low days of a channel in the window therefore fall into one group,
regardless of gaps or intervening high days. -/

/-- C1: on the daily mean series `[3,3,3,5,2,2,2,2]` over days 1–8 the
query returns a *single* row counting all 7 low days as `consecutive_days`
and spanning days 1–8, not the two streaks (days 1–3 and days 5–8) the
specification describes. -/
theorem streaks_c1_single_run :
    detectStreaks msgsC1 8 =
      [{ channel_id := "eng", streak_start := 1, streak_end := 8,
         consecutive_days := 7, avg_sentiment_in_streak := 17/7 }] := by
  norm_num [detectStreaks, msgsC1, windowed, inWindow, channelsOf, chanMsgs,
    streaksOfChannel, dailySentimentRows, datesOf, scoresOn, sortDates,
    insertSorted, mean, lowCase, withGrp, withGrpAux, grpKeys, listMin,
    listMax, List.filterMap_cons, List.filter_cons, List.dedup_cons_of_mem,
    List.dedup_cons_of_not_mem]

/-- C3: with two 2-day low spans separated by the messageless day 3, the
query *does* return a single streak row with `consecutive_days = 4`
spanning days 1–5 — the calendar gap does not break the (degenerate) group. -/
theorem streaks_c3_gap_merged :
    detectStreaks msgsC3 5 =
      [{ channel_id := "eng", streak_start := 1, streak_end := 5,
         consecutive_days := 4, avg_sentiment_in_streak := 2 }] := by
  norm_num [detectStreaks, msgsC3, windowed, inWindow, channelsOf, chanMsgs,
    streaksOfChannel, dailySentimentRows, datesOf, scoresOn, sortDates,
    insertSorted, mean, lowCase, withGrp, withGrpAux, grpKeys, listMin,
    listMax, List.filterMap_cons, List.filter_cons, List.dedup_cons_of_mem,
    List.dedup_cons_of_not_mem]

/-! ### C6: the OLS slope on [2,3,4,5,6] and on constant series -/

/-- Pointwise product against a constant right column. -/
theorem zip_replicate_mul_sum (xs : List ℚ) (c : ℚ) :
    ((xs.zip (List.replicate xs.length c)).map (fun p => p.1 * p.2)).sum
      = c * xs.sum := by
  induction xs with
  | nil => simp
  | cons x t ih =>
      simp only [List.length_cons, List.replicate_succ, List.zip_cons_cons,
        List.map_cons, List.sum_cons, ih]
      ring

/-- The OLS slope of any constant series is 0. -/
theorem olsSlope_replicate (n : ℕ) (c : ℚ) :
    olsSlope (List.replicate n c) = 0 := by
  have hxslen : ((List.range n).map (fun i => ((i + 1 : ℕ) : ℚ))).length = n := by
    rw [List.length_map, List.length_range]
  have hzip : ((((List.range n).map (fun i => ((i + 1 : ℕ) : ℚ))).zip
      (List.replicate n c)).map (fun p => p.1 * p.2)).sum
      = c * ((List.range n).map (fun i => ((i + 1 : ℕ) : ℚ))).sum := by
    have h := zip_replicate_mul_sum ((List.range n).map (fun i => ((i + 1 : ℕ) : ℚ))) c
    rwa [hxslen] at h
  simp only [olsSlope, List.length_replicate, hzip, List.sum_replicate,
    nsmul_eq_mul]
  rw [div_eq_zero_iff]
  left
  ring

/-- C6: the least-squares slope of the trend query equals exactly 1 on the
daily mean series `[2,3,4,5,6]`, and 0 on every constant series of at least
3 points. -/
theorem ols_slope_examples :
    olsSlope [2, 3, 4, 5, 6] = 1 ∧
      ∀ (n : ℕ) (c : ℚ), 3 ≤ n → olsSlope (List.replicate n c) = 0 := by
  constructor
  · have hr : List.range 5 = [0, 1, 2, 3, 4] := by decide
    norm_num [olsSlope, hr]
  · intro n c _
    exact olsSlope_replicate n c

/-- Witness for C6's constant-series half at `n = 3`, `c = 4`. -/
theorem ols_slope_examples_witness :
    olsSlope (List.replicate 3 (4 : ℚ)) = 0 ∧ olsSlope [2, 3, 4, 5, 6] = 1 :=
  ⟨ols_slope_examples.2 3 4 (by norm_num), ols_slope_examples.1⟩

/-! ### C8: weekly bucketing assigns Mondays, not Sundays -/

/-- `DATE(d, 'weekday 0', '-6 days')` is the most recent Monday `≤ d`. -/
theorem weekStartCode_eq_mondayStart (d : ℤ) :
    weekStartCode d = mondayStart d := by
  simp only [weekStartCode, nextSunday, dow, mondayStart]
  omega

/-- C8 counterexample: a message on day 0 — a Sunday — is assigned
`week_start = -6` (the previous Monday), while the most recent Sunday
`≤ 0` is day 0 itself. -/
theorem weekly_week_start_not_sunday :
    (getWeeklyMoodTrends [⟨"c", "u", 0, 5⟩] 0 4).map (·.week_start) = [-6] ∧
      sundaySpec 0 = 0 ∧ (-6 : ℤ) ≠ (0 : ℤ) := by
  refine ⟨?_, by norm_num [sundaySpec, dow], by norm_num⟩
  norm_num [getWeeklyMoodTrends, windowed, inWindow, weekStartCode,
    nextSunday, dow, sortDates, insertSorted, List.filter_cons, mean]

/-- C8 amended: every weekly bucket's `week_start` is the most recent
*Monday* on or before the date of one of the bucket's in-window messages
(day-of-week 1, at most 6 days back). -/
theorem weekly_week_start_monday (msgs : List Msg) (now weeks : ℤ)
    (b : WeeklyBucket) (hb : b ∈ getWeeklyMoodTrends msgs now weeks) :
    ∃ m ∈ windowed msgs now (weeks * 7), b.week_start = mondayStart m.date ∧
      dow b.week_start = 1 ∧ b.week_start ≤ m.date ∧
      m.date - b.week_start < 7 := by
  simp only [getWeeklyMoodTrends, List.mem_map] at hb
  obtain ⟨ws, hws, rfl⟩ := hb
  rw [mem_sortDates, List.mem_dedup, List.mem_map] at hws
  obtain ⟨m, hm, hwm⟩ := hws
  refine ⟨m, hm, ?_⟩
  subst hwm
  rw [weekStartCode_eq_mondayStart]
  refine ⟨rfl, ?_, ?_, ?_⟩ <;> simp only [mondayStart, dow] <;> omega

/-- Witness for C8's amended statement on a one-message input dated day 0
(a Sunday): its bucket's `week_start` is the Monday six days earlier. -/
theorem weekly_week_start_monday_witness :
    ∃ m ∈ windowed [⟨"c", "u", 0, 5⟩] 0 (4 * 7),
      (⟨-6, 5, 1⟩ : WeeklyBucket).week_start = mondayStart m.date ∧
        dow (⟨-6, 5, 1⟩ : WeeklyBucket).week_start = 1 ∧
        (⟨-6, 5, 1⟩ : WeeklyBucket).week_start ≤ m.date ∧
        m.date - (⟨-6, 5, 1⟩ : WeeklyBucket).week_start < 7 :=
  weekly_week_start_monday [⟨"c", "u", 0, 5⟩] 0 4 ⟨-6, 5, 1⟩
    (by norm_num [getWeeklyMoodTrends, windowed, inWindow, weekStartCode,
      nextSunday, dow, sortDates, insertSorted, List.filter_cons, mean])

/-! ### C9: out-of-range scores are not excluded from aggregates -/

/-- C9 counterexample: a day holding a score-100 message and a score-5
message aggregates to `total_messages = 2` and `overall_mood = 52.5` — the
out-of-range message is counted and averaged, not excluded (and nothing in
the engine records a data-quality note). -/
theorem out_of_range_included_cex :
    (getDailyMoodTrends msgsC9 0 14).map
        (fun b => (b.total_messages, b.overall_mood)) = [(2, 105/2)] := by
  norm_num [getDailyMoodTrends, msgsC9, windowed, inWindow, datesOf,
    scoresOn, sortDates, insertSorted, mkDailyBucket,
    List.dedup_cons_of_mem, List.dedup_cons_of_not_mem, List.filter_cons]

/-- C9 amended: an in-window message contributes to its day's aggregate
regardless of its sentiment score — in particular a score outside `[1,10]`
is included, not excluded. -/
theorem out_of_range_included (msgs : List Msg) (m : Msg) (now days : ℤ)
    (hin : inWindow now days m = true) (_hout : m.score < 1 ∨ 10 < m.score) :
    (scoresOn (windowed (m :: msgs) now days) m.date).length
      = (scoresOn (windowed msgs now days) m.date).length + 1 := by
  simp [windowed, scoresOn, List.filter_cons, hin]

/-- Witness for C9's amended statement: the score-100 message of `msgsC9`
is counted. -/
theorem out_of_range_included_witness :
    (scoresOn (windowed msgsC9 0 14) 0).length
      = (scoresOn (windowed [Msg.mk "c" "u" 0 5] 0 14) 0).length + 1 :=
  out_of_range_included [Msg.mk "c" "u" 0 5] (Msg.mk "c" "u" 0 100) 0 14
    (by decide) (Or.inr (by norm_num))

/-! ### C4: trend analysis requires 3 messages per day, not 3 daily points -/

theorem mem_chanMsgs {msgs : List Msg} {c : String} {m : Msg} :
    m ∈ chanMsgs msgs c ↔ m ∈ msgs ∧ m.channel_id = c := by
  simp [chanMsgs]

theorem mem_channelsOf {msgs : List Msg} {c : String} :
    c ∈ channelsOf msgs ↔ ∃ m ∈ msgs, m.channel_id = c := by
  simp [channelsOf, List.mem_dedup, eq_comm]

/-- C4 counterexample: three daily points with one message each and means
`[6,4,2]` satisfy the claim's conditions (3 points remain, slope −2 <
−0.3, mean 4 < 6), yet the query reports nothing: its inner
`HAVING COUNT(*) >= 3` discards every day with fewer than 3 messages. -/
theorem trend_c4_cex :
    specTrendDecline msgsC4 3 "c" ∧ decliningTrends msgsC4 3 = [] := by
  have hr3 : List.range 3 = [0, 1, 2] := by decide
  constructor
  · refine ⟨?_, ?_, ?_⟩ <;>
      norm_num [specTrendDecline, msgsC4, windowed, inWindow, chanMsgs,
        datesOf, scoresOn, sortDates, insertSorted, mean, olsSlope, hr3,
        List.filter_cons, List.dedup_cons_of_mem, List.dedup_cons_of_not_mem]
  · norm_num [decliningTrends, msgsC4, windowed, inWindow, channelsOf,
      chanMsgs, channelTrend, qualifyingDays, datesOf, scoresOn, sortDates,
      insertSorted, mean, olsSlope, List.filter_cons, List.filterMap_cons,
      List.dedup_cons_of_mem, List.dedup_cons_of_not_mem]

/-- C4 amended: the declining-trend query reports channel `c` exactly when
at least 3 in-window days *having at least 3 messages each* remain and the
OLS slope over those days' means is `< -0.3` and their overall mean is
`< 6`. -/
theorem trend_decline_iff (msgs : List Msg) (now : ℤ) (c : String) :
    (∃ r ∈ decliningTrends msgs now, r.channel_id = c) ↔
      (3 ≤ (qualifyingDays (windowed msgs now 5) c).length ∧
        olsSlope ((qualifyingDays (windowed msgs now 5) c).map
          (fun d => mean (scoresOn (chanMsgs (windowed msgs now 5) c) d)))
          < -(3/10) ∧
        mean ((qualifyingDays (windowed msgs now 5) c).map
          (fun d => mean (scoresOn (chanMsgs (windowed msgs now 5) c) d)))
          < 6) := by
  constructor
  · rintro ⟨r, hr, hrc⟩
    simp only [decliningTrends, List.mem_filterMap] at hr
    obtain ⟨c', _, hct⟩ := hr
    simp only [channelTrend] at hct
    split_ifs at hct with hcond
    · have hrow := Option.some.inj hct
      have hcc : c' = c := by rw [← hrc, ← hrow]
      subst hcc
      exact hcond
  · rintro ⟨h1, h2, h3⟩
    have hne : 0 < (qualifyingDays (windowed msgs now 5) c).length := by omega
    obtain ⟨d, hd⟩ := List.exists_mem_of_length_pos hne
    have hd' : d ∈ sortDates (datesOf (chanMsgs (windowed msgs now 5) c)) :=
      List.mem_of_mem_filter hd
    rw [mem_sortDates] at hd'
    simp only [datesOf, List.mem_dedup, List.mem_map] at hd'
    obtain ⟨m, hm, _⟩ := hd'
    rw [mem_chanMsgs] at hm
    have hcw : c ∈ channelsOf (windowed msgs now 5) :=
      mem_channelsOf.mpr ⟨m, hm.1, hm.2⟩
    have hsome : channelTrend (windowed msgs now 5) c = some
        { channel_id := c,
          days_count := (qualifyingDays (windowed msgs now 5) c).length,
          trend_slope := olsSlope ((qualifyingDays (windowed msgs now 5) c).map
            (fun d => mean (scoresOn (chanMsgs (windowed msgs now 5) c) d))),
          avg_sentiment := mean ((qualifyingDays (windowed msgs now 5) c).map
            (fun d => mean (scoresOn (chanMsgs (windowed msgs now 5) c) d))) } := by
      simp only [channelTrend]
      rw [if_pos ⟨h1, h2, h3⟩]
    exact ⟨_, List.mem_filterMap.mpr ⟨c, hcw, hsome⟩, rfl⟩

/-- Sanity demonstration for C4's amended statement: with 3 messages per
day and daily means `[6,4,2]`, the query does report the channel. -/
theorem trend_c4w_detects :
    (decliningTrends msgsC4w 3).map (fun r => r.channel_id) = ["c"] := by
  have hr3 : List.range 3 = [0, 1, 2] := by decide
  norm_num [decliningTrends, msgsC4w, windowed, inWindow, channelsOf,
    chanMsgs, channelTrend, qualifyingDays, datesOf, scoresOn, sortDates,
    insertSorted, mean, olsSlope, hr3, List.filter_cons, List.filterMap_cons,
    List.dedup_cons_of_mem, List.dedup_cons_of_not_mem]

/-! ### C7: user risk flags the *rounded* negative share -/

theorem countP_replicate' {α : Type} (p : α → Bool) (n : ℕ) (a : α) :
    (List.replicate n a).countP p = if p a then n else 0 := by
  induction n with
  | zero => simp
  | succ k ih =>
      simp only [List.replicate_succ, List.countP_cons, ih]
      by_cases h : p a <;> simp [h]

theorem filter_replicate_pos {α : Type} (p : α → Bool) (n : ℕ) (a : α)
    (h : p a = true) : (List.replicate n a).filter p = List.replicate n a := by
  induction n with
  | zero => simp
  | succ k ih => simp [List.replicate_succ, List.filter_cons, h, ih]

theorem dedup_replicate' {α : Type} [DecidableEq α] (n : ℕ) (a : α)
    (h : n ≠ 0) : (List.replicate n a).dedup = [a] := by
  induction n with
  | zero => exact absurd rfl h
  | succ k ih =>
      rcases Nat.eq_zero_or_pos k with hk | hk
      · subst hk
        simp
      · rw [List.replicate_succ, List.dedup_cons_of_mem
          (by simp [List.mem_replicate]; omega)]
        exact ih (by omega)

theorem mem_usersOf {msgs : List Msg} {u : String} :
    u ∈ usersOf msgs ↔ ∃ m ∈ msgs, m.user_id = u := by
  simp [usersOf, List.mem_dedup, eq_comm]

/-- The scores of `msgsC7`'s single user. -/
theorem msgsC7_scores :
    (userMsgs (windowed msgsC7 1 7) "u").map (fun m => m.score)
      = List.replicate 61 (1 : ℚ) ++ List.replicate 142 (5 : ℚ) := by
  have hw : windowed msgsC7 1 7 = msgsC7 := by
    rw [windowed, List.filter_eq_self]
    intro m hm
    rw [msgsC7, List.mem_append, List.mem_replicate, List.mem_replicate] at hm
    rcases hm with ⟨_, rfl⟩ | ⟨_, rfl⟩ <;> rfl
  have hu : userMsgs msgsC7 "u" = msgsC7 := by
    rw [userMsgs, List.filter_eq_self]
    intro m hm
    rw [msgsC7, List.mem_append, List.mem_replicate, List.mem_replicate] at hm
    rcases hm with ⟨_, rfl⟩ | ⟨_, rfl⟩ <;> rfl
  rw [hw, hu, msgsC7, List.map_append, List.map_replicate, List.map_replicate]

/-- C7 counterexample: the user of `msgsC7` has mean `771/203 < 4.5` and an
exact negative share of `6100/203 ≈ 30.049% > 30%`, so the claim flags
them; the query stores `ROUND(·, 1) = 30.0`, and `30.0 > 30` fails, so the
code does not flag them. -/
theorem user_risk_c7_cex :
    specUserFlag msgsC7 1 "u" ∧ atRiskUsers msgsC7 1 = [] := by
  have hsc := msgsC7_scores
  have husers : usersOf (windowed msgsC7 1 7) = ["u"] := by
    have hw : windowed msgsC7 1 7 = msgsC7 := by
      rw [windowed, List.filter_eq_self]
      intro m hm
      rw [msgsC7, List.mem_append, List.mem_replicate, List.mem_replicate] at hm
      rcases hm with ⟨_, rfl⟩ | ⟨_, rfl⟩ <;> rfl
    rw [hw, usersOf, msgsC7, List.map_append, List.map_replicate,
      List.map_replicate, ← List.replicate_add, dedup_replicate']
    omega
  have hsum : (List.replicate 61 (1 : ℚ) ++ List.replicate 142 (5 : ℚ)).sum
      = 771 := by
    rw [List.sum_append, List.sum_replicate, List.sum_replicate,
      nsmul_eq_mul, nsmul_eq_mul]
    norm_num
  have hlen : (List.replicate 61 (1 : ℚ) ++ List.replicate 142 (5 : ℚ)).length
      = 203 := by
    rw [List.length_append, List.length_replicate, List.length_replicate]
  have hneg : (List.replicate 61 (1 : ℚ) ++ List.replicate 142 (5 : ℚ)).countP
      (fun s => decide (s < 4)) = 61 := by
    rw [List.countP_append, countP_replicate', countP_replicate']
    norm_num
  constructor
  · refine ⟨by rw [hsc]; simp, ?_, ?_⟩
    · rw [hsc, mean, hsum, hlen]
      norm_num
    · rw [hsc, hneg, hlen]
      norm_num
  · rw [atRiskUsers, husers]
    have hrow : mkUserRow (windowed msgsC7 1 7) "u" =
        { user_id := "u"
          channels_active := ((userMsgs (windowed msgsC7 1 7) "u").map
            (fun m => m.channel_id)).dedup.length
          total_messages := 203
          avg_sentiment := 771 / 203
          negative_message_percentage := 30 } := by
      simp only [mkUserRow, hsc, hsum, hlen, hneg]
      refine congrArg _ ?_
      norm_num [round1]
    simp only [List.map_cons, List.map_nil, hrow, List.filter_cons]
    norm_num

/-- C7 amended: the user-risk query flags user `u` exactly when `u` has at
least one in-window message, the in-window mean sentiment is `< 4.5`, and
the *rounded-to-one-decimal* negative share exceeds 30. -/
theorem user_flag_iff (msgs : List Msg) (now : ℤ) (u : String) :
    (∃ r ∈ atRiskUsers msgs now, r.user_id = u) ↔
      (userMsgs (windowed msgs now 7) u ≠ [] ∧
        (mkUserRow (windowed msgs now 7) u).avg_sentiment < 4.5 ∧
        30 < (mkUserRow (windowed msgs now 7) u).negative_message_percentage) := by
  constructor
  · rintro ⟨r, hr, hru⟩
    simp only [atRiskUsers, List.mem_filter, List.mem_map] at hr
    obtain ⟨⟨u', hu', hmk⟩, hp⟩ := hr
    have huu : u' = u := by
      rw [← hru, ← hmk]
      rfl
    subst huu
    subst hmk
    rw [Bool.and_eq_true, decide_eq_true_eq, decide_eq_true_eq] at hp
    refine ⟨?_, hp.1, hp.2⟩
    rw [mem_usersOf] at hu'
    obtain ⟨m, hm, hmu⟩ := hu'
    exact List.ne_nil_of_mem (List.mem_filter.mpr ⟨hm, by simp [hmu]⟩)
  · rintro ⟨hne, h1, h2⟩
    obtain ⟨m, hm⟩ := List.exists_mem_of_ne_nil _ hne
    rw [userMsgs, List.mem_filter] at hm
    have hu : u ∈ usersOf (windowed msgs now 7) :=
      mem_usersOf.mpr ⟨m, hm.1, by simpa using hm.2⟩
    refine ⟨mkUserRow (windowed msgs now 7) u, ?_, rfl⟩
    simp only [atRiskUsers, List.mem_filter, List.mem_map]
    exact ⟨⟨u, hu, rfl⟩, by simp [h1, h2]⟩

/-- Sanity demonstration for C7's amended statement at the spec's own
example: 10 messages, 4 negative, mean 4.2 → flagged (`negative_pct = 40`). -/
theorem user_c7w_flagged :
    (atRiskUsers msgsC7w 1).map (fun r => r.user_id) = ["u"] := by
  norm_num [atRiskUsers, msgsC7w, usersOf, mkUserRow, userMsgs, windowed,
    inWindow, round1, List.filter_cons, List.dedup_cons_of_mem,
    List.dedup_cons_of_not_mem]

/-! ### C2: channel-alert deduplication -/

theorem countFor_append (c : String) (l1 l2 : List Alert) :
    countFor c (l1 ++ l2) = countFor c l1 + countFor c l2 := by
  simp [countFor]

theorem countFor_singleton (c : String) (a : Alert) :
    countFor c [a] = if a.channel_id = c then 1 else 0 := by
  simp [countFor, List.countP_cons]

theorem any_channel (c : String) (l : List Alert) :
    (l.any (fun a => a.channel_id == c)) = true ↔ 0 < countFor c l := by
  rw [List.any_eq_true, countFor, List.countP_pos_iff]

/-- A push for channel `ch.id` never changes the alert count of a channel
that already has an alert. -/
theorem countFor_step_pos (c : String) (acc : List Alert) (ch : SummaryRow)
    (h : 0 < countFor c acc) :
    countFor c (thresholdStep acc ch) = countFor c acc := by
  unfold thresholdStep
  split_ifs with h1 h2
  · rw [countFor_append, countFor_singleton]
    have hc : ¬ ch.id = c := by
      intro hc
      subst hc
      exact h1.2 ((any_channel _ _).mpr h)
    rw [if_neg hc]
    omega
  · rw [countFor_append, countFor_singleton]
    have hc : ¬ ch.id = c := by
      intro hc
      subst hc
      exact h2.2 ((any_channel _ _).mpr h)
    rw [if_neg hc]
    omega
  · rfl

theorem countFor_fold_pos (c : String) (l : List SummaryRow) :
    ∀ acc : List Alert, 0 < countFor c acc →
      countFor c (l.foldl thresholdStep acc) = countFor c acc := by
  induction l with
  | nil => intro acc _; rfl
  | cons ch t ih =>
      intro acc h
      rw [List.foldl_cons, ih _ (by rw [countFor_step_pos c acc ch h]; exact h),
        countFor_step_pos c acc ch h]

theorem countFor_step_le (c : String) (acc : List Alert) (ch : SummaryRow) :
    countFor c (thresholdStep acc ch) ≤ countFor c acc + 1 := by
  unfold thresholdStep
  split_ifs
  · rw [countFor_append, countFor_singleton]
    split_ifs <;> omega
  · rw [countFor_append, countFor_singleton]
    split_ifs <;> omega
  · omega

theorem countFor_fold_le (c : String) (l : List SummaryRow) :
    ∀ acc : List Alert,
      countFor c (l.foldl thresholdStep acc) ≤ max 1 (countFor c acc) := by
  induction l with
  | nil => intro acc; rw [List.foldl_nil]; omega
  | cons ch t ih =>
      intro acc
      rw [List.foldl_cons]
      rcases Nat.eq_zero_or_pos (countFor c acc) with h0 | hpos
      · have hstep := countFor_step_le c acc ch
        have := ih (thresholdStep acc ch)
        omega
      · rw [countFor_fold_pos c t _
          (by rw [countFor_step_pos c acc ch hpos]; exact hpos),
          countFor_step_pos c acc ch hpos]
        omega

/-- The threshold loop preserves "a high/medium alert for `c` implies it is
the channel's only alert". -/
theorem hm_step (c : String) (acc : List Alert) (ch : SummaryRow)
    (hinv : hmFor c acc → countFor c acc = 1) :
    hmFor c (thresholdStep acc ch) → countFor c (thresholdStep acc ch) = 1 := by
  intro hhm
  unfold thresholdStep at hhm ⊢
  split_ifs at hhm ⊢ with h1 h2
  · rw [countFor_append, countFor_singleton]
    obtain ⟨a, ha, hac, hsev⟩ := hhm
    rw [List.mem_append] at ha
    rcases ha with ha | ha
    · have hone := hinv ⟨a, ha, hac, hsev⟩
      have hc : ¬ ch.id = c := by
        intro hc
        subst hc
        exact h1.2 ((any_channel _ _).mpr (by omega))
      rw [if_neg hc, hone]
    · rw [List.mem_singleton] at ha
      subst ha
      have hc : ch.id = c := hac
      subst hc
      have hz : countFor ch.id acc = 0 := by
        by_contra hnz
        exact h1.2 ((any_channel _ _).mpr (by omega))
      rw [if_pos rfl, hz]
  · rw [countFor_append, countFor_singleton]
    obtain ⟨a, ha, hac, hsev⟩ := hhm
    rw [List.mem_append] at ha
    rcases ha with ha | ha
    · have hone := hinv ⟨a, ha, hac, hsev⟩
      have hc : ¬ ch.id = c := by
        intro hc
        subst hc
        exact h2.2 ((any_channel _ _).mpr (by omega))
      rw [if_neg hc, hone]
    · rw [List.mem_singleton] at ha
      subst ha
      have hc : ch.id = c := hac
      subst hc
      have hz : countFor ch.id acc = 0 := by
        by_contra hnz
        exact h2.2 ((any_channel _ _).mpr (by omega))
      rw [if_pos rfl, hz]
  · exact hinv hhm

theorem hm_fold (c : String) (l : List SummaryRow) :
    ∀ acc : List Alert, (hmFor c acc → countFor c acc = 1) →
      hmFor c (l.foldl thresholdStep acc) →
        countFor c (l.foldl thresholdStep acc) = 1 := by
  induction l with
  | nil => intro acc h; exact h
  | cons ch t ih => intro acc h; exact ih _ (hm_step c acc ch h)

/-- No streak- or trend-derived alert is high/medium. -/
theorem hm_base (c : String) (streaks : List StreakRow) (trends : List TrendRow) :
    ¬ hmFor c ((streaks.map (fun s =>
        ({ channel_id := s.channel_id, alert_type := "burnout_critical",
           severity := "critical" } : Alert))) ++
      (trends.map (fun t =>
        ({ channel_id := t.channel_id, alert_type := "declining_trend",
           severity := "warning" } : Alert)))) := by
  rintro ⟨a, ha, _, hsev⟩
  rw [List.mem_append] at ha
  rcases ha with ha | ha <;>
    · rw [List.mem_map] at ha
      obtain ⟨s, _, rfl⟩ := ha
      rcases hsev with h | h <;> simp at h

/-- A list whose key column is duplicate-free contributes at most one
matching row. -/
theorem countP_key_le_one {α : Type} (f : α → String) (c : String)
    (l : List α) (h : (l.map f).Nodup) :
    l.countP (fun x => f x == c) ≤ 1 := by
  induction l with
  | nil => simp
  | cons x t ih =>
      rw [List.map_cons, List.nodup_cons] at h
      rw [List.countP_cons]
      by_cases hx : f x = c
      · have hz : t.countP (fun y => f y == c) = 0 := by
          rw [List.countP_eq_zero]
          intro y hy
          simp only [beq_iff_eq, decide_eq_true_eq]
          intro hyc
          exact h.1 (List.mem_map.mpr ⟨y, hy, by rw [hyc, hx]⟩)
        simp [hx, hz]
      · have := ih h.2
        simp [hx]
        omega

/-- C2 counterexample: a channel appearing both in the streak rows and in
the declining-trend rows receives *two* channel-scoped alerts in one run —
a `critical` and a `warning` — because the trend loop pushes without
checking for an existing alert. -/
theorem alerts_two_for_one_channel :
    generateChannelAlerts cexStreaks cexTrends [] =
      [{ channel_id := "eng", alert_type := "burnout_critical",
         severity := "critical" },
       { channel_id := "eng", alert_type := "declining_trend",
         severity := "warning" }] ∧
      countFor "eng" (generateChannelAlerts cexStreaks cexTrends []) = 2 := by
  constructor <;> rfl

/-- C2 amended: when the streak rows and the trend rows each mention a
channel at most once (as the `GROUP BY channel_id` queries guarantee), a
channel receives at most two channel-scoped alerts per run (one `critical`
plus one `warning`), and a threshold-derived `high`/`medium` alert is
emitted only as the channel's single alert. -/
theorem channel_alert_dedup (streaks : List StreakRow) (trends : List TrendRow)
    (channels : List SummaryRow)
    (hs : (streaks.map (fun s => s.channel_id)).Nodup)
    (ht : (trends.map (fun t => t.channel_id)).Nodup) (c : String) :
    countFor c (generateChannelAlerts streaks trends channels) ≤ 2 ∧
      (hmFor c (generateChannelAlerts streaks trends channels) →
        countFor c (generateChannelAlerts streaks trends channels) = 1) := by
  have hbase : countFor c ((streaks.map (fun s =>
      ({ channel_id := s.channel_id, alert_type := "burnout_critical",
         severity := "critical" } : Alert))) ++
      (trends.map (fun t =>
      ({ channel_id := t.channel_id, alert_type := "declining_trend",
         severity := "warning" } : Alert)))) ≤ 2 := by
    rw [countFor_append]
    have h1 : countFor c (streaks.map (fun s =>
        ({ channel_id := s.channel_id, alert_type := "burnout_critical",
           severity := "critical" } : Alert))) ≤ 1 := by
      rw [countFor, List.countP_map]
      exact countP_key_le_one (fun s => s.channel_id) c streaks hs
    have h2 : countFor c (trends.map (fun t =>
        ({ channel_id := t.channel_id, alert_type := "declining_trend",
           severity := "warning" } : Alert))) ≤ 1 := by
      rw [countFor, List.countP_map]
      exact countP_key_le_one (fun t => t.channel_id) c trends ht
    omega
  constructor
  · have hle := countFor_fold_le c channels ((streaks.map (fun s =>
        ({ channel_id := s.channel_id, alert_type := "burnout_critical",
           severity := "critical" } : Alert))) ++
        (trends.map (fun t =>
        ({ channel_id := t.channel_id, alert_type := "declining_trend",
           severity := "warning" } : Alert))))
    simp only [generateChannelAlerts]
    omega
  · simp only [generateChannelAlerts]
    exact hm_fold c channels _ (fun h => absurd h (hm_base c streaks trends))

/-- Witness for C2's amended statement: the counterexample inputs together
with one channel summary. -/
theorem channel_alert_dedup_witness :
    countFor "eng" (generateChannelAlerts cexStreaks cexTrends
        [{ id := "eng", avg_sentiment := 3 }]) ≤ 2 ∧
      (hmFor "eng" (generateChannelAlerts cexStreaks cexTrends
          [{ id := "eng", avg_sentiment := 3 }]) →
        countFor "eng" (generateChannelAlerts cexStreaks cexTrends
          [{ id := "eng", avg_sentiment := 3 }]) = 1) :=
  channel_alert_dedup cexStreaks cexTrends [{ id := "eng", avg_sentiment := 3 }]
    (by simp [cexStreaks]) (by simp [cexTrends]) "eng"

/-! ### C10: emoji sentiments and reaction blending stay in [1,10] -/

/-- Every table entry's value lies in `[1,10]`. -/
theorem emojiMap_values : ∀ p ∈ emojiMap, 1 ≤ p.2 ∧ p.2 ≤ 10 := by decide

/-- `getEmojiSentiment` always returns a value in `[1,10]`. -/
theorem getEmojiSentiment_range (e : String) :
    1 ≤ getEmojiSentiment e ∧ getEmojiSentiment e ≤ 10 := by
  unfold getEmojiSentiment
  cases hf : emojiMap.find? (fun p => p.1 == e) with
  | none => simp [hf]; norm_num
  | some p =>
      simp only [Option.map_some', Option.getD_some]
      exact emojiMap_values p (List.mem_of_find?_eq_some hf)

/-- The count-weighted reaction sum is at least the total count. -/
theorem reactionCount_le_reactionSum (rs : List (String × ℕ)) :
    (reactionCount rs : ℚ) ≤ reactionSum rs := by
  induction rs with
  | nil => simp [reactionSum, reactionCount]
  | cons r t ih =>
      simp only [reactionSum, reactionCount, List.map_cons, List.sum_cons] at ih ⊢
      have h1 := (getEmojiSentiment_range r.1).1
      have hec : (0 : ℚ) ≤ (effCount r.2 : ℚ) := Nat.cast_nonneg _
      have hge : (effCount r.2 : ℚ) ≤ getEmojiSentiment r.1 * (effCount r.2 : ℚ) := by
        nlinarith
      push_cast
      push_cast at ih
      linarith

/-- The count-weighted reaction sum is at most ten times the total count. -/
theorem reactionSum_le_ten (rs : List (String × ℕ)) :
    reactionSum rs ≤ 10 * (reactionCount rs : ℚ) := by
  induction rs with
  | nil => simp [reactionSum, reactionCount]
  | cons r t ih =>
      simp only [reactionSum, reactionCount, List.map_cons, List.sum_cons] at ih ⊢
      have h10 := (getEmojiSentiment_range r.1).2
      have hec : (0 : ℚ) ≤ (effCount r.2 : ℚ) := Nat.cast_nonneg _
      have hge : getEmojiSentiment r.1 * (effCount r.2 : ℚ)
          ≤ 10 * (effCount r.2 : ℚ) := by nlinarith
      push_cast
      push_cast at ih
      linarith

/-- C10: every emoji name maps into `[1,10]` (unknown names to the neutral
5), and for a text score in `[1,10]` the reaction-blended stored score
`0.7·text + 0.3·(count-weighted average reaction sentiment)` stays in
`[1,10]`. -/
theorem emoji_blend_range :
    (∀ e, 1 ≤ getEmojiSentiment e ∧ getEmojiSentiment e ≤ 10) ∧
      (∀ e, emojiMap.find? (fun p => p.1 == e) = none →
        getEmojiSentiment e = 5) ∧
      (∀ (t : ℚ) (rs : List (String × ℕ)), 1 ≤ t → t ≤ 10 →
        1 ≤ processedScore t rs ∧ processedScore t rs ≤ 10) := by
  refine ⟨getEmojiSentiment_range, ?_, ?_⟩
  · intro e h
    simp [getEmojiSentiment, h]
  · intro t rs h1 h10
    unfold processedScore
    split_ifs with hz
    · exact ⟨h1, h10⟩
    · have hcpos : (0 : ℚ) < (reactionCount rs : ℚ) := by
        exact_mod_cast Nat.pos_of_ne_zero hz
      have hlb := reactionCount_le_reactionSum rs
      have hub := reactionSum_le_ten rs
      have havg1 : 1 ≤ reactionSum rs / (reactionCount rs : ℚ) :=
        (one_le_div hcpos).mpr hlb
      have havg10 : reactionSum rs / (reactionCount rs : ℚ) ≤ 10 :=
        (div_le_iff₀ hcpos).mpr (by linarith)
      constructor <;> linarith

/-- Witness for C10 at a concrete input: text score 5 with two `:fire:`
reactions. -/
theorem emoji_blend_range_witness :
    1 ≤ processedScore 5 [("fire", 2)] ∧ processedScore 5 [("fire", 2)] ≤ 10 :=
  emoji_blend_range.2.2 5 [("fire", 2)] (by norm_num) (by norm_num)

end Pulse
